import Mathlib

/-!
Verification of the cursor/marker interaction subsystem and waveform-history buffer
of the OpenHantek oscilloscope GUI.

The development is a shallow embedding of the relevant functions of
`src/openhantek/src/dsowidget.cpp` and `src/openhantek/src/glscope.cpp`.
Coordinates and scale factors are embedded as rational numbers; the fallible
container and division operations are totalized with `Except`.  The grid
constants `DIVS_TIME` and `DIVS_VOLTAGE` (declared in a header that is not part
of the four source files) are carried as explicit parameters `divsTime` and
`divsVoltage` of every definition that reads them.
-/

/-- Type QPointF as used for normalized marker coordinates: a 2D point with
rational coordinates. -/
structure Point where
  x : ℚ
  y : ℚ
deriving DecidableEq, Repr

/-! ## ZoomMapper: DsoWidget::mainToZoom and DsoWidget::zoomToMain -/

/-- Order normalization of the two time markers performed by both mapping
functions: `if (m1 > m2) std::swap(m1, m2);` (dsowidget.cpp:764 and 772). -/
def normalizedMarkers (m1 m2 : ℚ) : ℚ × ℚ :=
  if m1 > m2 then (m2, m1) else (m1, m2)

/-- Function DsoWidget::mainToZoom (dsowidget.cpp:761-766): translate a
horizontal position from the main view to the zoom view,
`((position - 0.5) * DIVS_TIME - m1) / (m2 - m1)` after swap-normalization. -/
def mainToZoom (divsTime m1 m2 position : ℚ) : ℚ :=
  ((position - 1/2) * divsTime - (normalizedMarkers m1 m2).1) /
    ((normalizedMarkers m1 m2).2 - (normalizedMarkers m1 m2).1)

/-- Function DsoWidget::zoomToMain (dsowidget.cpp:769-774): translate a
horizontal position from the zoom view back to the main view,
`0.5 + (m1 + position * (m2 - m1)) / DIVS_TIME` after swap-normalization. -/
def zoomToMain (divsTime m1 m2 position : ℚ) : ℚ :=
  1/2 + ((normalizedMarkers m1 m2).1 +
    position * ((normalizedMarkers m1 m2).2 - (normalizedMarkers m1 m2).1)) / divsTime

/-- Error value for a division whose denominator is zero. -/
inductive ZoomMapError where
  | divByZero
deriving DecidableEq, Repr

/-- Division totalized with an explicit error branch for a zero denominator. -/
def checkedDiv (a b : ℚ) : Except ZoomMapError ℚ :=
  if b = 0 then Except.error ZoomMapError.divByZero else Except.ok (a / b)

/-- Function DsoWidget::mainToZoom with its single division made explicit via
`checkedDiv`; the source applies the division unguarded. -/
def mainToZoomChecked (divsTime m1 m2 position : ℚ) : Except ZoomMapError ℚ :=
  checkedDiv ((position - 1/2) * divsTime - (normalizedMarkers m1 m2).1)
    ((normalizedMarkers m1 m2).2 - (normalizedMarkers m1 m2).1)

/-- Scale factor `(m2 - m1)` applied to the zoom-space position by
DsoWidget::zoomToMain (dsowidget.cpp:773) after swap-normalization. -/
def zoomToMainScale (m1 m2 : ℚ) : ℚ :=
  (normalizedMarkers m1 m2).2 - (normalizedMarkers m1 m2).1

/-- Sanity: the checked map agrees with the total map away from the degenerate
marker pair. -/
theorem mainToZoomChecked_eq_ok (divsTime m1 m2 x : ℚ) (hm : m1 ≠ m2) :
    mainToZoomChecked divsTime m1 m2 x = Except.ok (mainToZoom divsTime m1 m2 x) := by
  unfold mainToZoomChecked mainToZoom checkedDiv normalizedMarkers
  split_ifs with h h2 h2 <;> simp_all
  · exact hm (by linarith [sub_eq_zero.mp h2])
  · exact hm (sub_eq_zero.mp h2).symm

/-- C1: for every main-view position x and every pair of distinct time markers,
composing the zoom mappings returns the original position:
`zoomToMain (mainToZoom x) = x`; both functions swap-normalize the marker pair
first. -/
theorem zoomToMain_mainToZoom_roundtrip (divsTime m1 m2 x : ℚ)
    (hT : divsTime ≠ 0) (hm : m1 ≠ m2) :
    zoomToMain divsTime m1 m2 (mainToZoom divsTime m1 m2 x) = x := by
  unfold zoomToMain mainToZoom normalizedMarkers
  split_ifs with h
  · have hne : m1 - m2 ≠ 0 := sub_ne_zero.mpr hm
    field_simp
    ring
  · have hne : m2 - m1 ≠ 0 := sub_ne_zero.mpr (Ne.symm hm)
    field_simp
    ring

/-- Witness for C1 at a concrete input: divsTime = 10, markers 3 and 1
(deliberately out of order), x = 7/2. -/
theorem zoomToMain_mainToZoom_roundtrip_witness :
    (10 : ℚ) ≠ 0 ∧ (3 : ℚ) ≠ 1 ∧
      zoomToMain 10 3 1 (mainToZoom 10 3 1 (7/2)) = 7/2 :=
  ⟨by norm_num, by norm_num,
    zoomToMain_mainToZoom_roundtrip 10 3 1 (7/2) (by norm_num) (by norm_num)⟩

/-- C7: when the two time markers coincide, the division of mainToZoom hits the
error branch of the totalized division for every input position, and the scale
factor of zoomToMain is zero; nothing in the source guards this case. -/
theorem mainToZoom_degenerate_divByZero (divsTime m1 m2 : ℚ) (h : m1 = m2) :
    (∀ x, mainToZoomChecked divsTime m1 m2 x = Except.error ZoomMapError.divByZero) ∧
      zoomToMainScale m1 m2 = 0 := by
  subst h
  constructor
  · intro x
    simp [mainToZoomChecked, checkedDiv, normalizedMarkers]
  · simp [zoomToMainScale, normalizedMarkers]

/-- Witness for C7 at a concrete input: divsTime = 10, both markers at 2,
position 1/3. -/
theorem mainToZoom_degenerate_divByZero_witness :
    mainToZoomChecked 10 2 2 (1/3) = Except.error ZoomMapError.divByZero ∧
      zoomToMainScale 2 2 = 0 :=
  ⟨(mainToZoom_degenerate_divByZero 10 2 2 rfl).1 (1/3),
    (mainToZoom_degenerate_divByZero 10 2 2 rfl).2⟩


/-! ## Dependent zoom-view trigger-position control (C6) -/

/-- Modelled from the spec: the dependent zoom-view trigger-position control is
channel 0 of `zoomSliders.triggerPositionSlider`, an instance of class
LevelSlider whose source file is not under `src/`.  Per the spec it carries a
declared [min, max] range, a current value (`setValue`) and an enabled flag
(`setEnabled`). -/
structure Slider where
  minimum : ℚ
  maximum : ℚ
  value : ℚ
  enabled : Bool
deriving DecidableEq, Repr

/-- Function DsoWidget::adaptTriggerPositionSlider (dsowidget.cpp:777-793):
map the trigger position through mainToZoom; if the result lies inside the
control's range, enable the control and set the value, otherwise disable it and
clamp to the exceeded bound. -/
def adaptTriggerPositionSlider (divsTime m1 m2 triggerPosition : ℚ) (s : Slider) : Slider :=
  let value := mainToZoom divsTime m1 m2 triggerPosition
  if s.minimum ≤ value ∧ value ≤ s.maximum then
    { s with enabled := true, value := value }
  else
    { s with enabled := false,
             value := if value < s.minimum then s.minimum else s.maximum }

/-- State of DsoWidget relevant to marker updates.  The fields `marker0` and
`marker1` are modelled from the spec: they hold what `scope->getMarker(0)` and
`scope->getMarker(1)` return (the accessor lives in scopesettings.h, which is
not under `src/`; the spec defines the zoom window as "the ordered pair of the
two time-marker x-positions"). -/
structure DsoWidgetState where
  marker0 : ℚ
  marker1 : ℚ
  triggerPosition : ℚ
  zoomTriggerSlider : Slider
deriving DecidableEq, Repr

/-- Function DsoWidget::updateMarker (dsowidget.cpp:840-844): store the moved
marker (`scope->setMarker(marker, value)`), then recompute the dependent
trigger-position control via adaptTriggerPositionSlider. -/
def updateMarker (divsTime : ℚ) (marker : ℕ) (value : ℚ) (w : DsoWidgetState) :
    DsoWidgetState :=
  let w1 := if marker = 0 then { w with marker0 := value } else { w with marker1 := value }
  let s1 := adaptTriggerPositionSlider divsTime w1.marker0 w1.marker1 w1.triggerPosition w1.zoomTriggerSlider
  { w1 with zoomTriggerSlider := s1 }

/-- C6: the trigger-position control recomputation: if the zoom-space-mapped
trigger position lies within the control's [min, max] range the control is
enabled and set to exactly that value, otherwise it is disabled and set to the
minimum bound when the value is below min and to the maximum bound when it is
above max; and DsoWidget::updateMarker performs exactly this recomputation
(with the freshly stored marker) on every marker move. -/
theorem updateMarker_slider_clamped (divsTime m1 m2 triggerPosition : ℚ) (s : Slider)
    (marker : ℕ) (v : ℚ) (w : DsoWidgetState)
    (hrange : s.minimum ≤ s.maximum) :
    (s.minimum ≤ mainToZoom divsTime m1 m2 triggerPosition ∧
        mainToZoom divsTime m1 m2 triggerPosition ≤ s.maximum →
      adaptTriggerPositionSlider divsTime m1 m2 triggerPosition s =
        { s with enabled := true, value := mainToZoom divsTime m1 m2 triggerPosition }) ∧
    (mainToZoom divsTime m1 m2 triggerPosition < s.minimum →
      adaptTriggerPositionSlider divsTime m1 m2 triggerPosition s =
        { s with enabled := false, value := s.minimum }) ∧
    (s.maximum < mainToZoom divsTime m1 m2 triggerPosition →
      adaptTriggerPositionSlider divsTime m1 m2 triggerPosition s =
        { s with enabled := false, value := s.maximum }) ∧
    (updateMarker divsTime marker v w).zoomTriggerSlider =
      adaptTriggerPositionSlider divsTime (updateMarker divsTime marker v w).marker0
        (updateMarker divsTime marker v w).marker1
        (updateMarker divsTime marker v w).triggerPosition w.zoomTriggerSlider := by
  refine ⟨fun hin => ?_, fun hlo => ?_, fun hhi => ?_, ?_⟩
  · simp only [adaptTriggerPositionSlider]
    rw [if_pos hin]
  · simp only [adaptTriggerPositionSlider]
    rw [if_neg (by intro hc; linarith [hc.1]), if_pos hlo]
  · simp only [adaptTriggerPositionSlider]
    rw [if_neg (by intro hc; linarith [hc.2]), if_neg (by linarith)]
  · by_cases hm : marker = 0 <;> simp [updateMarker, hm]

/-- Witness for C6 at concrete inputs: divsTime = 10, markers 1 and 3, trigger
position 3/4; the mapped value ((3/4 - 1/2) * 10 - 1) / (3 - 1) = 3/4 lies in
the range [0, 1], so the control ends enabled at 3/4; the recomputation is also
exercised through updateMarker. -/
theorem updateMarker_slider_clamped_witness :
    adaptTriggerPositionSlider 10 1 3 (3/4) ⟨0, 1, 0, false⟩ = ⟨0, 1, 3/4, true⟩ ∧
      (updateMarker 10 1 3 ⟨1, 0, 3/4, ⟨0, 1, 0, false⟩⟩).zoomTriggerSlider =
        adaptTriggerPositionSlider 10 1 3 (3/4) ⟨0, 1, 0, false⟩ := by
  have hval : mainToZoom 10 1 3 (3/4) = 3/4 := by
    norm_num [mainToZoom, normalizedMarkers]
  have h := updateMarker_slider_clamped 10 1 3 (3/4) ⟨0, 1, 0, false⟩ 1 3
    ⟨1, 0, 3/4, ⟨0, 1, 0, false⟩⟩ (by norm_num)
  constructor
  · have h1 := h.1 (by rw [hval]; norm_num)
    rw [h1, hval]
  · exact h.2.2.2

/-! ## CursorModel and hit testing (GlScope) -/

/-- Enum DsoSettingsScopeCursor::CursorShape: NONE, HORIZONTAL, VERTICAL,
RECTANGULAR. -/
inductive CursorShape where
  | none
  | horizontal
  | vertical
  | rectangular
deriving DecidableEq, Repr

/-- Struct DsoSettingsScopeCursor: a shape and the two marker positions
`position[0]` and `position[1]`. -/
structure ScopeCursor where
  shape : CursorShape
  pos0 : Point
  pos1 : Point
deriving DecidableEq, Repr

/-- Read `cursor.position[marker]`; the spec fixes the valid indices to exactly
0 and 1. -/
def markerPosition (c : ScopeCursor) (marker : ℕ) : Point :=
  if marker = 0 then c.pos0 else c.pos1

/-- Write `cursor.position[marker] = p`. -/
def setMarkerPosition (c : ScopeCursor) (marker : ℕ) (p : Point) : ScopeCursor :=
  if marker = 0 then { c with pos0 := p } else { c with pos1 := p }

/-- Modelled from the spec: constant MARKER_COUNT, declared in a header that is
not under `src/`; the spec states "position indices are exactly 0 and 1". -/
def MARKER_COUNT : ℕ := 2

/-- Condition captureX of GlScope::mousePressEvent (glscope.cpp:79-80): the
x axis snaps for RECTANGULAR and VERTICAL cursors. -/
def captureX : CursorShape → Bool
  | CursorShape.rectangular => true
  | CursorShape.vertical => true
  | _ => false

/-- Condition captureY of GlScope::mousePressEvent (glscope.cpp:81-82): the
y axis snaps for RECTANGULAR and HORIZONTAL cursors. -/
def captureY : CursorShape → Bool
  | CursorShape.rectangular => true
  | CursorShape.horizontal => true
  | _ => false

/-- Running state of the marker scan of GlScope::mousePressEvent: the shared
distance pair (initialized to (DIVS_TIME, DIVS_VOLTAGE)) and the currently
recorded marker (NO_MARKER modelled as `Option.none`). -/
structure HitState where
  distX : ℚ
  distY : ℚ
  selectedMarker : Option ℕ
deriving DecidableEq, Repr

/-- One iteration of the marker loop of GlScope::mousePressEvent
(glscope.cpp:83-92): the x-axis check runs first and the y-axis check second,
both against the shared distance pair, each recording the marker on success. -/
def hitMarkerStep (divsTime divsVoltage : ℚ) (cX cY : Bool) (c : ScopeCursor)
    (p : Point) (st : HitState) (marker : ℕ) : HitState :=
  let st1 :=
    if cX = true ∧ |(markerPosition c marker).x - p.x| < min st.distX (divsTime / 100) then
      { st with distX := |(markerPosition c marker).x - p.x|, selectedMarker := some marker }
    else st
  if cY = true ∧ |(markerPosition c marker).y - p.y| < min st1.distY (divsVoltage / 100) then
    { st1 with distY := |(markerPosition c marker).y - p.y|, selectedMarker := some marker }
  else st1

/-- The whole marker scan of GlScope::mousePressEvent (glscope.cpp:75-92):
fold the per-marker step over markers 0 and 1 starting from the initial
distance pair (DIVS_TIME, DIVS_VOLTAGE) and NO_MARKER. -/
def hitScan (divsTime divsVoltage : ℚ) (c : ScopeCursor) (p : Point) : HitState :=
  (List.range MARKER_COUNT).foldl
    (hitMarkerStep divsTime divsVoltage (captureX c.shape) (captureY c.shape) c p)
    ⟨divsTime, divsVoltage, Option.none⟩

/-- State of a GlScope widget as far as the pointer-event handlers read and
write it: the cursor list `cursorInfo` (a total map, indexed as in the source:
0 is the time-marker cursor), the selected cursor index, and the anchored
marker `selectedMarker` (NO_MARKER modelled as `Option.none`). -/
structure GlScopeState where
  cursors : ℕ → ScopeCursor
  selectedCursor : ℕ
  selectedMarker : Option ℕ

/-- Handler GlScope::mousePressEvent (glscope.cpp:71-99) for the main
(non-zoomed) view with the left button; `p` is the already-normalized pointer
position.  Returns the new state and the arguments of the emitted markerMoved
signals; note the emission on a press hit is guarded by `selectedCursor == 0`
(glscope.cpp:95). -/
def mousePressEvent (divsTime divsVoltage : ℚ) (p : Point) (s : GlScopeState) :
    GlScopeState × List ℕ :=
  let cursor := s.cursors s.selectedCursor
  match (hitScan divsTime divsVoltage cursor p).selectedMarker with
  | Option.none => ({ s with selectedMarker := Option.none }, [])
  | some m =>
    ({ s with selectedMarker := some m,
              cursors := Function.update s.cursors s.selectedCursor (setMarkerPosition cursor m p) },
     if s.selectedCursor = 0 then [m] else [])

/-- Handler GlScope::mouseMoveEvent (glscope.cpp:101-119) for the main view
with the left button held: if no marker is anchored, every marker is moved to
`p` (emitting markerMoved for each) and the last one becomes anchored;
otherwise only the anchored marker is moved. -/
def mouseMoveEvent (p : Point) (s : GlScopeState) : GlScopeState × List ℕ :=
  match s.selectedMarker with
  | Option.none =>
    let r := (List.range MARKER_COUNT).foldl
      (fun (acc : ScopeCursor × List ℕ × Option ℕ) marker =>
        (setMarkerPosition acc.1 marker p, acc.2.1 ++ [marker], some marker))
      (s.cursors s.selectedCursor, [], Option.none)
    ({ s with cursors := Function.update s.cursors s.selectedCursor r.1,
              selectedMarker := r.2.2 }, r.2.1)
  | some m =>
    if m < MARKER_COUNT then
      ({ s with cursors := Function.update s.cursors s.selectedCursor
                  (setMarkerPosition (s.cursors s.selectedCursor) m p) }, [m])
    else (s, [])

/-- Handler GlScope::mouseReleaseEvent (glscope.cpp:121-132) for the main view
with the left button: move the anchored marker (if any) to the final position,
emit markerMoved for it, and always clear the anchor. -/
def mouseReleaseEvent (p : Point) (s : GlScopeState) : GlScopeState × List ℕ :=
  match s.selectedMarker with
  | some m =>
    if m < MARKER_COUNT then
      ({ s with cursors := Function.update s.cursors s.selectedCursor
                  (setMarkerPosition (s.cursors s.selectedCursor) m p),
                selectedMarker := Option.none }, [m])
    else ({ s with selectedMarker := Option.none }, [])
  | Option.none => ({ s with selectedMarker := Option.none }, [])

/-- Pointer position `p` misses every marker of cursor `c`: on each capturable
axis, both markers are at distance at least 1% of that axis's full scale. -/
def missesAllMarkers (divsTime divsVoltage : ℚ) (c : ScopeCursor) (p : Point) : Prop :=
  ∀ marker, marker < MARKER_COUNT →
    (captureX c.shape = true → divsTime / 100 ≤ |(markerPosition c marker).x - p.x|) ∧
    (captureY c.shape = true → divsVoltage / 100 ≤ |(markerPosition c marker).y - p.y|)

instance (divsTime divsVoltage : ℚ) (c : ScopeCursor) (p : Point) :
    Decidable (missesAllMarkers divsTime divsVoltage c p) :=
  Nat.decidableBallLT MARKER_COUNT _

/-- Helper: a scan step on a marker whose capturable-axis distances are at
least the snap radius leaves the scan state unchanged. -/
theorem hitMarkerStep_no_hit (divsTime divsVoltage : ℚ) (cX cY : Bool)
    (c : ScopeCursor) (p : Point) (st : HitState) (marker : ℕ)
    (hx : cX = true → divsTime / 100 ≤ |(markerPosition c marker).x - p.x|)
    (hy : cY = true → divsVoltage / 100 ≤ |(markerPosition c marker).y - p.y|) :
    hitMarkerStep divsTime divsVoltage cX cY c p st marker = st := by
  have hnx : ¬(cX = true ∧ |(markerPosition c marker).x - p.x| < min st.distX (divsTime / 100)) := by
    rintro ⟨hcx, hlt⟩
    exact absurd (lt_of_lt_of_le hlt (min_le_right _ _)) (not_lt.mpr (hx hcx))
  have hny : ¬(cY = true ∧ |(markerPosition c marker).y - p.y| < min st.distY (divsVoltage / 100)) := by
    rintro ⟨hcy, hlt⟩
    exact absurd (lt_of_lt_of_le hlt (min_le_right _ _)) (not_lt.mpr (hy hcy))
  simp only [hitMarkerStep]
  rw [if_neg hnx, if_neg hny]

/-- Helper: when a scan step ends with no marker recorded, nothing changed and
both axis checks of this iteration failed against the incoming distances. -/
theorem hitMarkerStep_eq_none (divsTime divsVoltage : ℚ) (cX cY : Bool)
    (c : ScopeCursor) (p : Point) (st : HitState) (marker : ℕ)
    (h : (hitMarkerStep divsTime divsVoltage cX cY c p st marker).selectedMarker = Option.none) :
    hitMarkerStep divsTime divsVoltage cX cY c p st marker = st ∧
      st.selectedMarker = Option.none ∧
      (cX = true → min st.distX (divsTime / 100) ≤ |(markerPosition c marker).x - p.x|) ∧
      (cY = true → min st.distY (divsVoltage / 100) ≤ |(markerPosition c marker).y - p.y|) := by
  simp only [hitMarkerStep] at h
  by_cases h1 : cX = true ∧ |(markerPosition c marker).x - p.x| < min st.distX (divsTime / 100)
  · rw [if_pos h1] at h
    split_ifs at h
  · rw [if_neg h1] at h
    by_cases h2 : cY = true ∧ |(markerPosition c marker).y - p.y| < min st.distY (divsVoltage / 100)
    · rw [if_pos h2] at h
      simp_all
    · rw [if_neg h2] at h
      refine ⟨?_, h, fun hcx => ?_, fun hcy => ?_⟩
      · simp only [hitMarkerStep]
        rw [if_neg h1, if_neg h2]
      · by_contra hlt
        exact h1 ⟨hcx, not_le.mp hlt⟩
      · by_contra hlt
        exact h2 ⟨hcy, not_le.mp hlt⟩

/-- Helper: when a scan step ends with marker `m` recorded, either this
iteration recorded it because an enabled axis check passed within the snap
radius, or it was already recorded before. -/
theorem hitMarkerStep_eq_some (divsTime divsVoltage : ℚ) (cX cY : Bool)
    (c : ScopeCursor) (p : Point) (st : HitState) (marker m : ℕ)
    (h : (hitMarkerStep divsTime divsVoltage cX cY c p st marker).selectedMarker = some m) :
    (m = marker ∧
      ((cX = true ∧ |(markerPosition c marker).x - p.x| < divsTime / 100) ∨
       (cY = true ∧ |(markerPosition c marker).y - p.y| < divsVoltage / 100))) ∨
      st.selectedMarker = some m := by
  simp only [hitMarkerStep] at h
  split_ifs at h with h1 h2 h2
  · exact Or.inl ⟨(Option.some_inj.mp h).symm,
      Or.inr ⟨h2.1, lt_of_lt_of_le h2.2 (min_le_right _ _)⟩⟩
  · exact Or.inl ⟨(Option.some_inj.mp h).symm,
      Or.inl ⟨h1.1, lt_of_lt_of_le h1.2 (min_le_right _ _)⟩⟩
  · exact Or.inl ⟨(Option.some_inj.mp h).symm,
      Or.inr ⟨h2.1, lt_of_lt_of_le h2.2 (min_le_right _ _)⟩⟩
  · exact Or.inr h

/-- Helper: the scan visits exactly markers 0 and 1, in that order. -/
theorem hitScan_eq_steps (divsTime divsVoltage : ℚ) (c : ScopeCursor) (p : Point) :
    hitScan divsTime divsVoltage c p =
      hitMarkerStep divsTime divsVoltage (captureX c.shape) (captureY c.shape) c p
        (hitMarkerStep divsTime divsVoltage (captureX c.shape) (captureY c.shape) c p
          ⟨divsTime, divsVoltage, Option.none⟩ 0) 1 := rfl

/-- Helper: a press position at snap distance at least 1% of full scale from
both markers on every capturable axis leaves the scan empty-handed. -/
theorem hitScan_misses (divsTime divsVoltage : ℚ) (c : ScopeCursor) (p : Point)
    (hmiss : missesAllMarkers divsTime divsVoltage c p) :
    hitScan divsTime divsVoltage c p = ⟨divsTime, divsVoltage, Option.none⟩ := by
  rw [hitScan_eq_steps,
    hitMarkerStep_no_hit _ _ _ _ _ _ _ 0 (hmiss 0 (by norm_num [MARKER_COUNT])).1
      (hmiss 0 (by norm_num [MARKER_COUNT])).2,
    hitMarkerStep_no_hit _ _ _ _ _ _ _ 1 (hmiss 1 (by norm_num [MARKER_COUNT])).1
      (hmiss 1 (by norm_num [MARKER_COUNT])).2]

/-- Helper: a press that misses every marker only clears the anchor: no cursor
is mutated and no signal is emitted. -/
theorem mousePressEvent_no_hit (divsTime divsVoltage : ℚ) (p : Point) (s : GlScopeState)
    (hmiss : missesAllMarkers divsTime divsVoltage (s.cursors s.selectedCursor) p) :
    mousePressEvent divsTime divsVoltage p s = ({ s with selectedMarker := Option.none }, []) := by
  simp only [mousePressEvent, hitScan_misses _ _ _ _ hmiss]

/-- Helper: writing marker `m` and reading it back gives the written point. -/
theorem markerPosition_set_self (c : ScopeCursor) (m : ℕ) (p : Point) :
    markerPosition (setMarkerPosition c m p) m = p := by
  by_cases hm : m = 0 <;> simp [markerPosition, setMarkerPosition, hm]

/-- C3 (amended): on pointer-down in the main view with the left button, for
the selected cursor and its shape-determined capturable axes:
(a) a pointer-down at distance at least 1% of full scale from both markers on
every capturable axis anchors no marker and mutates nothing;
(b) whenever a marker is anchored, it is one of the two markers, it lay within
1% of full scale of the pointer on some capturable axis, and it is moved to the
pointer position (the cross-axis shared distance bookkeeping decides which
qualifying marker wins, not axis-wise nearest);
(c) with positive grid constants, whenever no marker is anchored, both markers
were at distance at least 1% of full scale on every capturable axis. -/
theorem mousePressEvent_snap_spec (divsTime divsVoltage : ℚ) (p : Point) (s : GlScopeState) :
    (missesAllMarkers divsTime divsVoltage (s.cursors s.selectedCursor) p →
      mousePressEvent divsTime divsVoltage p s = ({ s with selectedMarker := Option.none }, [])) ∧
    (∀ m, (mousePressEvent divsTime divsVoltage p s).1.selectedMarker = some m →
      m < MARKER_COUNT ∧
      ((captureX (s.cursors s.selectedCursor).shape = true ∧
          |(markerPosition (s.cursors s.selectedCursor) m).x - p.x| < divsTime / 100) ∨
       (captureY (s.cursors s.selectedCursor).shape = true ∧
          |(markerPosition (s.cursors s.selectedCursor) m).y - p.y| < divsVoltage / 100)) ∧
      markerPosition ((mousePressEvent divsTime divsVoltage p s).1.cursors s.selectedCursor) m = p) ∧
    (0 < divsTime → 0 < divsVoltage →
      (mousePressEvent divsTime divsVoltage p s).1.selectedMarker = Option.none →
      missesAllMarkers divsTime divsVoltage (s.cursors s.selectedCursor) p) := by
  refine ⟨mousePressEvent_no_hit divsTime divsVoltage p s, fun m hm => ?_, fun hT hV hnone => ?_⟩
  · have hscan : (hitScan divsTime divsVoltage (s.cursors s.selectedCursor) p).selectedMarker
        = some m := by
      simp only [mousePressEvent] at hm
      rcases hh : (hitScan divsTime divsVoltage (s.cursors s.selectedCursor) p).selectedMarker with
        _ | m'
      · rw [hh] at hm
        simp at hm
      · rw [hh] at hm
        simp at hm
        rw [hm]
    have hsteps := hscan
    rw [hitScan_eq_steps] at hsteps
    have hclose : m < MARKER_COUNT ∧
        ((captureX (s.cursors s.selectedCursor).shape = true ∧
            |(markerPosition (s.cursors s.selectedCursor) m).x - p.x| < divsTime / 100) ∨
         (captureY (s.cursors s.selectedCursor).shape = true ∧
            |(markerPosition (s.cursors s.selectedCursor) m).y - p.y| < divsVoltage / 100)) := by
      rcases hitMarkerStep_eq_some _ _ _ _ _ _ _ _ _ hsteps with ⟨hm1, hcond⟩ | hprev
      · subst hm1
        exact ⟨by norm_num [MARKER_COUNT], hcond⟩
      · rcases hitMarkerStep_eq_some _ _ _ _ _ _ _ _ _ hprev with ⟨hm0, hcond⟩ | hinit
        · subst hm0
          exact ⟨by norm_num [MARKER_COUNT], hcond⟩
        · simp at hinit
    refine ⟨hclose.1, hclose.2, ?_⟩
    simp only [mousePressEvent, hscan]
    simp only [Function.update_same]
    exact markerPosition_set_self _ _ _
  · have hscan : (hitScan divsTime divsVoltage (s.cursors s.selectedCursor) p).selectedMarker
        = Option.none := by
      simp only [mousePressEvent] at hnone
      rcases hh : (hitScan divsTime divsVoltage (s.cursors s.selectedCursor) p).selectedMarker with
        _ | m'
      · rfl
      · rw [hh] at hnone
        simp at hnone
    rw [hitScan_eq_steps] at hscan
    rcases hitMarkerStep_eq_none _ _ _ _ _ _ _ _ hscan with ⟨_, hnone0, hx1, hy1⟩
    rcases hitMarkerStep_eq_none _ _ _ _ _ _ _ _ hnone0 with ⟨heq0, _, hx0, hy0⟩
    rw [heq0] at hx1 hy1
    have hminT : min divsTime (divsTime / 100) = divsTime / 100 :=
      min_eq_right (by linarith)
    have hminV : min divsVoltage (divsVoltage / 100) = divsVoltage / 100 :=
      min_eq_right (by linarith)
    intro marker hmk
    have hmk2 : marker < 2 := hmk
    interval_cases marker
    · exact ⟨fun hcx => by simpa [hminT] using hx0 hcx,
        fun hcy => by simpa [hminV] using hy0 hcy⟩
    · exact ⟨fun hcx => by simpa [hminT] using hx1 hcx,
        fun hcy => by simpa [hminV] using hy1 hcy⟩


/-- C3 counterexample: rectangular cursor with position[0] = (0, 0) and
position[1] = (5, 39/10), pointer at (1/20, 77/20), grid constants 10 and 8
(snap radii 1/10 and 2/25).  Marker 0 is within 1% of full scale on the
capturable x axis and is the unique (hence nearest) x-axis candidate, yet the
handler anchors marker 1 (which qualifies on the y axis and is scanned later)
and leaves position[0] untouched, contradicting the claim that the nearest
axis candidate becomes the anchored marker and is moved to the pointer. -/
theorem mousePressEvent_nearest_counterexample :
    captureX CursorShape.rectangular = true ∧
    |(0 : ℚ) - 1/20| < 10 / 100 ∧
    ¬(|(5 : ℚ) - 1/20| < 10 / 100) ∧
    (mousePressEvent 10 8 ⟨1/20, 77/20⟩
      ⟨fun _ => ⟨CursorShape.rectangular, ⟨0, 0⟩, ⟨5, 39/10⟩⟩, 0,
        Option.none⟩).1.selectedMarker = some 1 ∧
    ((mousePressEvent 10 8 ⟨1/20, 77/20⟩
      ⟨fun _ => ⟨CursorShape.rectangular, ⟨0, 0⟩, ⟨5, 39/10⟩⟩, 0,
        Option.none⟩).1.cursors 0).pos0 = ⟨0, 0⟩ := by
  have hscan : hitScan 10 8 ⟨CursorShape.rectangular, ⟨0, 0⟩, ⟨5, 39/10⟩⟩ ⟨1/20, 77/20⟩ =
      ⟨1/20, 1/20, some 1⟩ := by
    rw [hitScan_eq_steps]
    norm_num [hitMarkerStep, markerPosition, captureX, captureY, min_def,
      abs_sub_lt_iff, abs_lt, abs_of_nonneg, abs_of_nonpos]
  refine ⟨rfl, by norm_num [abs_lt], by norm_num [abs_lt, le_abs], ?_, ?_⟩
  · simp only [mousePressEvent, hscan]
  · simp only [mousePressEvent, hscan]
    norm_num [Function.update_same, setMarkerPosition]

/-- Witness for C3 at concrete inputs: a press at the origin misses both
markers of the selected rectangular cursor on both axes, so nothing is
anchored and nothing is mutated. -/
theorem mousePressEvent_snap_spec_witness :
    missesAllMarkers 10 8 ⟨CursorShape.rectangular, ⟨-3, -2⟩, ⟨3, 2⟩⟩ ⟨0, 0⟩ ∧
    mousePressEvent 10 8 ⟨0, 0⟩
        ⟨fun _ => ⟨CursorShape.rectangular, ⟨-3, -2⟩, ⟨3, 2⟩⟩, 0, Option.none⟩ =
      (⟨fun _ => ⟨CursorShape.rectangular, ⟨-3, -2⟩, ⟨3, 2⟩⟩, 0, Option.none⟩, []) := by
  have hmiss : missesAllMarkers 10 8 ⟨CursorShape.rectangular, ⟨-3, -2⟩, ⟨3, 2⟩⟩ ⟨0, 0⟩ := by
    intro marker hm
    have hm2 : marker < 2 := hm
    interval_cases marker <;>
      exact ⟨fun _ => by norm_num [markerPosition, le_abs],
        fun _ => by norm_num [markerPosition, le_abs]⟩
  exact ⟨hmiss,
    (mousePressEvent_snap_spec 10 8 ⟨0, 0⟩
      ⟨fun _ => ⟨CursorShape.rectangular, ⟨-3, -2⟩, ⟨3, 2⟩⟩, 0, Option.none⟩).1 hmiss⟩

/-- Helper: a move event with no anchored marker collapses both markers of the
selected cursor onto the pointer, emits markerMoved for markers 0 and 1, and
anchors the last marker. -/
theorem mouseMoveEvent_unanchored (p : Point) (s : GlScopeState)
    (h : s.selectedMarker = Option.none) :
    mouseMoveEvent p s = ({ s with cursors := Function.update s.cursors s.selectedCursor (setMarkerPosition (setMarkerPosition (s.cursors s.selectedCursor) 0 p) 1 p), selectedMarker := some 1 }, [0, 1]) := by
  simp only [mouseMoveEvent, h]
  rfl

/-- Helper: a move event with anchored marker `m` moves only that marker and
emits markerMoved for it. -/
theorem mouseMoveEvent_anchored (p : Point) (s : GlScopeState) (m : ℕ)
    (h : s.selectedMarker = some m) (hlt : m < MARKER_COUNT) :
    mouseMoveEvent p s = ({ s with cursors := Function.update s.cursors s.selectedCursor (setMarkerPosition (s.cursors s.selectedCursor) m p) }, [m]) := by
  simp only [mouseMoveEvent, h, if_pos hlt]

/-- C4: pointer-down outside every snap zone, then a move to p1, then a move to
p2: after the first move both markers of the selected cursor equal p1 and the
last marker (index 1) is anchored; after the second move marker 1 equals p2
while marker 0 still equals p1 (and marker 1 stays anchored). -/
theorem dragSequence_spec (divsTime divsVoltage : ℚ) (p0 p1 p2 : Point) (s : GlScopeState)
    (hmiss : missesAllMarkers divsTime divsVoltage (s.cursors s.selectedCursor) p0) :
    let s1 := (mousePressEvent divsTime divsVoltage p0 s).1
    let s2 := (mouseMoveEvent p1 s1).1
    let s3 := (mouseMoveEvent p2 s2).1
    (s2.cursors s.selectedCursor).pos0 = p1 ∧ (s2.cursors s.selectedCursor).pos1 = p1 ∧
    s2.selectedMarker = some 1 ∧
    (s3.cursors s.selectedCursor).pos0 = p1 ∧ (s3.cursors s.selectedCursor).pos1 = p2 ∧
    s3.selectedMarker = some 1 := by
  have h1 : (mousePressEvent divsTime divsVoltage p0 s).1 =
      { s with selectedMarker := Option.none } := by
    rw [mousePressEvent_no_hit divsTime divsVoltage p0 s hmiss]
  simp only [h1]
  rw [mouseMoveEvent_unanchored p1 { s with selectedMarker := Option.none } rfl]
  have h2 : ({ s with cursors := Function.update s.cursors s.selectedCursor (setMarkerPosition (setMarkerPosition (s.cursors s.selectedCursor) 0 p1) 1 p1), selectedMarker := some 1 } : GlScopeState).selectedMarker = some 1 := rfl
  rw [mouseMoveEvent_anchored p2 _ 1 h2 (by norm_num [MARKER_COUNT])]
  simp only [Function.update_same]
  refine ⟨?_, ?_, trivial, ?_, ?_, trivial⟩ <;>
    simp [setMarkerPosition]

/-- Witness for C4 at concrete inputs: press at the origin (missing both
markers of the rectangular cursor), then moves to (1, 1) and (2, -1). -/
theorem dragSequence_spec_witness :
    missesAllMarkers 10 8 ⟨CursorShape.rectangular, ⟨-3, -2⟩, ⟨3, 2⟩⟩ ⟨0, 0⟩ ∧
    (let s1 := (mousePressEvent 10 8 ⟨0, 0⟩ ⟨fun _ => ⟨CursorShape.rectangular, ⟨-3, -2⟩, ⟨3, 2⟩⟩, 0, Option.none⟩).1
     let s2 := (mouseMoveEvent ⟨1, 1⟩ s1).1
     let s3 := (mouseMoveEvent ⟨2, -1⟩ s2).1
     (s2.cursors 0).pos0 = ⟨1, 1⟩ ∧ (s2.cursors 0).pos1 = ⟨1, 1⟩ ∧
     s2.selectedMarker = some 1 ∧
     (s3.cursors 0).pos0 = ⟨1, 1⟩ ∧ (s3.cursors 0).pos1 = ⟨2, -1⟩ ∧
     s3.selectedMarker = some 1) := by
  have hmiss : missesAllMarkers 10 8 ⟨CursorShape.rectangular, ⟨-3, -2⟩, ⟨3, 2⟩⟩ ⟨0, 0⟩ := by
    intro marker hm
    have hm2 : marker < 2 := hm
    interval_cases marker <;>
      exact ⟨fun _ => by norm_num [markerPosition, le_abs],
        fun _ => by norm_num [markerPosition, le_abs]⟩
  exact ⟨hmiss, dragSequence_spec 10 8 ⟨0, 0⟩ ⟨1, 1⟩ ⟨2, -1⟩
    ⟨fun _ => ⟨CursorShape.rectangular, ⟨-3, -2⟩, ⟨3, 2⟩⟩, 0, Option.none⟩ hmiss⟩

/-- C10 (amended): marker mutations performed by pointer-move and pointer-up
always emit a markerMoved notification for the mutated marker (one per marker
for the collapse of an unanchored move), for every selected cursor; the
immediate pointer-down move of a hit marker, however, emits markerMoved only
when the selected cursor is the time-marker cursor (index 0). -/
theorem pointerEvents_notify_spec (divsTime divsVoltage : ℚ) (p : Point) (s : GlScopeState) :
    (∀ m, (mousePressEvent divsTime divsVoltage p s).1.selectedMarker = some m →
      (mousePressEvent divsTime divsVoltage p s).2 = if s.selectedCursor = 0 then [m] else []) ∧
    ((mousePressEvent divsTime divsVoltage p s).1.selectedMarker = Option.none →
      (mousePressEvent divsTime divsVoltage p s).2 = []) ∧
    (s.selectedMarker = Option.none → (mouseMoveEvent p s).2 = [0, 1]) ∧
    (∀ m, s.selectedMarker = some m → m < MARKER_COUNT → (mouseMoveEvent p s).2 = [m]) ∧
    (∀ m, s.selectedMarker = some m → m < MARKER_COUNT → (mouseReleaseEvent p s).2 = [m]) := by
  refine ⟨fun m hm => ?_, fun hn => ?_, fun hu => ?_, fun m hm hlt => ?_, fun m hm hlt => ?_⟩
  · rcases hh : (hitScan divsTime divsVoltage (s.cursors s.selectedCursor) p).selectedMarker with
      _ | m'
    · simp only [mousePressEvent, hh] at hm
      simp at hm
    · simp only [mousePressEvent, hh] at hm ⊢
      simp at hm
      rw [hm]
  · rcases hh : (hitScan divsTime divsVoltage (s.cursors s.selectedCursor) p).selectedMarker with
      _ | m'
    · simp only [mousePressEvent, hh]
    · simp only [mousePressEvent, hh] at hn
      simp at hn
  · rw [mouseMoveEvent_unanchored p s hu]
  · rw [mouseMoveEvent_anchored p s m hm hlt]
  · simp only [mouseReleaseEvent, hm, if_pos hlt]

/-- C10 counterexample: with cursor 1 selected (a voltage channel's vertical
cursor at x positions 1/20 and 5) a press at the origin hits and mutates
marker 0 (its position becomes the pointer position (0, 0), anchored), yet the
emitted markerMoved signal list is empty because the source guards the
emission with `selectedCursor == 0` (glscope.cpp:95). -/
theorem mousePressEvent_silent_counterexample :
    ((mousePressEvent 10 8 ⟨0, 0⟩ ⟨fun _ => ⟨CursorShape.vertical, ⟨1/20, 0⟩, ⟨5, 0⟩⟩, 1, Option.none⟩).1.cursors 1).pos0 = ⟨0, 0⟩ ∧
    (⟨(1 : ℚ)/20, 0⟩ : Point) ≠ ⟨0, 0⟩ ∧
    (mousePressEvent 10 8 ⟨0, 0⟩ ⟨fun _ => ⟨CursorShape.vertical, ⟨1/20, 0⟩, ⟨5, 0⟩⟩, 1, Option.none⟩).1.selectedMarker = some 0 ∧
    (mousePressEvent 10 8 ⟨0, 0⟩ ⟨fun _ => ⟨CursorShape.vertical, ⟨1/20, 0⟩, ⟨5, 0⟩⟩, 1, Option.none⟩).2 = [] := by
  have hscan : hitScan 10 8 ⟨CursorShape.vertical, ⟨1/20, 0⟩, ⟨5, 0⟩⟩ ⟨0, 0⟩ =
      ⟨1/20, 8, some 0⟩ := by
    rw [hitScan_eq_steps]
    norm_num [hitMarkerStep, markerPosition, captureX, captureY, min_def, abs_lt, le_abs,
      abs_of_nonneg]
  refine ⟨?_, by simp [Point.mk.injEq], ?_, ?_⟩
  · simp only [mousePressEvent, hscan]
    norm_num [Function.update_same, setMarkerPosition]
  · simp only [mousePressEvent, hscan]
  · simp only [mousePressEvent, hscan]
    norm_num

/-- Witness for C10 at concrete inputs: an unanchored move emits markerMoved
for both markers; an anchored release emits markerMoved for the anchored
marker; both with a non-time cursor (index 1) selected. -/
theorem pointerEvents_notify_spec_witness :
    (mouseMoveEvent ⟨1, 1⟩ ⟨fun _ => ⟨CursorShape.rectangular, ⟨-3, -2⟩, ⟨3, 2⟩⟩, 1, Option.none⟩).2 = [0, 1] ∧
    (mouseReleaseEvent ⟨1, 1⟩ ⟨fun _ => ⟨CursorShape.rectangular, ⟨-3, -2⟩, ⟨3, 2⟩⟩, 1, some 0⟩).2 = [0] :=
  ⟨(pointerEvents_notify_spec 10 8 ⟨1, 1⟩
      ⟨fun _ => ⟨CursorShape.rectangular, ⟨-3, -2⟩, ⟨3, 2⟩⟩, 1, Option.none⟩).2.2.1 rfl,
    (pointerEvents_notify_spec 10 8 ⟨1, 1⟩
      ⟨fun _ => ⟨CursorShape.rectangular, ⟨-3, -2⟩, ⟨3, 2⟩⟩, 1, some 0⟩).2.2.2.2 0 rfl
      (by norm_num [MARKER_COUNT])⟩

/-! ## GeometryGenerator: GlScope::generateVertices (C5) -/

/-- Type QVector3D as used for marker outline vertices. -/
structure Vertex where
  x : ℚ
  y : ℚ
  z : ℚ
deriving DecidableEq, Repr

/-- Function GlScope::generateVertices (glscope.cpp:269-306): the closed
4-vertex outline (drawn as a GL_LINE_LOOP) for one cursor, by shape. -/
def generateVertices (divsTime divsVoltage : ℚ) (c : ScopeCursor) : List Vertex :=
  match c.shape with
  | CursorShape.none =>
    [⟨-divsTime, -divsVoltage, 1⟩, ⟨-divsTime, divsVoltage, 1⟩,
     ⟨divsTime, divsVoltage, 1⟩, ⟨divsTime, -divsVoltage, 1⟩]
  | CursorShape.vertical =>
    [⟨c.pos0.x, -divsVoltage, 1⟩, ⟨c.pos0.x, divsVoltage, 1⟩,
     ⟨c.pos1.x, divsVoltage, 1⟩, ⟨c.pos1.x, -divsVoltage, 1⟩]
  | CursorShape.horizontal =>
    [⟨-divsTime, c.pos0.y, 1⟩, ⟨divsTime, c.pos0.y, 1⟩,
     ⟨divsTime, c.pos1.y, 1⟩, ⟨-divsTime, c.pos1.y, 1⟩]
  | CursorShape.rectangular =>
    [⟨c.pos0.x, c.pos0.y, 1⟩, ⟨c.pos0.x, c.pos1.y, 1⟩,
     ⟨c.pos1.x, c.pos1.y, 1⟩, ⟨c.pos1.x, c.pos0.y, 1⟩]

/-- C5: for every shape and marker pair the generator outputs a closed
4-vertex loop matching the table: NONE yields the rectangle at the full-scale
coordinates (±divsTime, ±divsVoltage), which covers the whole visible grid
[-divsTime/2, divsTime/2] x [-divsVoltage/2, divsVoltage/2]; VERTICAL yields
the rectangle with vertical edges at x = pos0.x and x = pos1.x spanning past
the full vertical extent; HORIZONTAL the rectangle with horizontal edges at
y = pos0.y and y = pos1.y spanning past the full horizontal extent;
RECTANGULAR the corners (pos0.x, pos0.y), (pos0.x, pos1.y), (pos1.x, pos1.y),
(pos1.x, pos0.y). -/
theorem generateVertices_table (divsTime divsVoltage : ℚ) (c : ScopeCursor)
    (hT : 0 < divsTime) (hV : 0 < divsVoltage) :
    (generateVertices divsTime divsVoltage c).length = 4 ∧
    (c.shape = CursorShape.none →
      generateVertices divsTime divsVoltage c =
        [⟨-divsTime, -divsVoltage, 1⟩, ⟨-divsTime, divsVoltage, 1⟩,
         ⟨divsTime, divsVoltage, 1⟩, ⟨divsTime, -divsVoltage, 1⟩]) ∧
    (c.shape = CursorShape.vertical →
      generateVertices divsTime divsVoltage c =
        [⟨c.pos0.x, -divsVoltage, 1⟩, ⟨c.pos0.x, divsVoltage, 1⟩,
         ⟨c.pos1.x, divsVoltage, 1⟩, ⟨c.pos1.x, -divsVoltage, 1⟩]) ∧
    (c.shape = CursorShape.horizontal →
      generateVertices divsTime divsVoltage c =
        [⟨-divsTime, c.pos0.y, 1⟩, ⟨divsTime, c.pos0.y, 1⟩,
         ⟨divsTime, c.pos1.y, 1⟩, ⟨-divsTime, c.pos1.y, 1⟩]) ∧
    (c.shape = CursorShape.rectangular →
      generateVertices divsTime divsVoltage c =
        [⟨c.pos0.x, c.pos0.y, 1⟩, ⟨c.pos0.x, c.pos1.y, 1⟩,
         ⟨c.pos1.x, c.pos1.y, 1⟩, ⟨c.pos1.x, c.pos0.y, 1⟩]) ∧
    (-divsTime < -(divsTime / 2) ∧ divsTime / 2 < divsTime ∧
     -divsVoltage < -(divsVoltage / 2) ∧ divsVoltage / 2 < divsVoltage) := by
  refine ⟨?_, fun h => ?_, fun h => ?_, fun h => ?_, fun h => ?_,
    by linarith, by linarith, by linarith, by linarith⟩ <;>
    cases hs : c.shape <;> simp_all [generateVertices]

/-- Witness for C5: the literal example from the spec, rectangular cursor with
pos0 = (-1, -1) and pos1 = (1, 1) on the 10 x 8 grid yields the corners
(-1, -1), (-1, 1), (1, 1), (1, -1). -/
theorem generateVertices_table_witness :
    generateVertices 10 8 ⟨CursorShape.rectangular, ⟨-1, -1⟩, ⟨1, 1⟩⟩ =
      [⟨-1, -1, 1⟩, ⟨-1, 1, 1⟩, ⟨1, 1, 1⟩, ⟨1, -1, 1⟩] :=
  (generateVertices_table 10 8 ⟨CursorShape.rectangular, ⟨-1, -1⟩, ⟨1, 1⟩⟩
    (by norm_num) (by norm_num)).2.2.2.2.1 rfl

/-! ## HistoryBuffer: GlScope::showData (C2, C8) -/

/-- Error for container accesses that are undefined on an empty std::list. -/
inductive BufferError where
  | emptyAccess
deriving DecidableEq, Repr

/-- One slot of the graph history `m_GraphHistory`: `Option.none` is a
default-constructed slot (from `resize`) that has not yet received data, and
`some f` is a slot holding frame `f` (frame payloads abstracted to naturals). -/
abbrev Slot : Type := Option ℕ

/-- Trim loop of GlScope::showData (glscope.cpp:254):
`while (view->digitalPhosphorDraws() < m_GraphHistory.size()) m_GraphHistory.pop_back();`
drops slots from the back until at most `cap` remain. -/
def popBackWhile (cap : ℕ) (h : List Slot) : List Slot :=
  if _hlt : cap < h.length then popBackWhile cap h.dropLast else h
termination_by h.length
decreasing_by simp only [List.length_dropLast]; omega

/-- Growth step of GlScope::showData (glscope.cpp:257):
`if (view->digitalPhosphorDraws() > m_GraphHistory.size()) m_GraphHistory.resize(size + 1);`
appends exactly one default slot when below capacity. -/
def growStep (cap : ℕ) (h : List Slot) : List Slot :=
  if h.length < cap then h ++ [Option.none] else h

/-- Function GlScope::showData (glscope.cpp:250-267): trim, grow by one slot if
below capacity, splice the last slot to the front, and overwrite it with the
new frame.  `std::prev(m_GraphHistory.end())` and `front()` are undefined
behavior on an empty std::list; that access is the error branch here. -/
def showData (cap frame : ℕ) (h : List Slot) : Except BufferError (List Slot) :=
  let h2 := growStep cap (popBackWhile cap h)
  if h2.isEmpty then Except.error BufferError.emptyAccess
  else Except.ok (some frame :: h2.dropLast)

/-- N-fold frame insertion: one GlScope::showData call per frame, in order. -/
def runShowData (cap : ℕ) (frames : List ℕ) (h : List Slot) :
    Except BufferError (List Slot) :=
  match frames with
  | [] => Except.ok h
  | f :: fs =>
    match showData cap f h with
    | Except.error e => Except.error e
    | Except.ok h2 => runShowData cap fs h2

/-- Helper: the pop_back loop is list truncation. -/
theorem popBackWhile_eq_take (cap : ℕ) (h : List Slot) :
    popBackWhile cap h = h.take cap := by
  induction h using List.reverseRecOn with
  | nil =>
    rw [popBackWhile]
    simp
  | append_singleton l a ih =>
    rw [popBackWhile]
    by_cases hc : cap < (l ++ [a]).length
    · rw [dif_pos hc, List.dropLast_concat, ih]
      have hle : cap ≤ l.length := by
        simp only [List.length_append, List.length_singleton] at hc
        omega
      rw [List.take_append_of_le_length hle]
    · rw [dif_neg hc]
      push_neg at hc
      exact (List.take_of_length_le hc).symm

/-- Helper: one insertion into a history within capacity (capacity at least 1)
keeps the most recent `cap - 1` retained slots and puts the new frame in
front. -/
theorem showData_of_length_le (cap f : ℕ) (h : List Slot)
    (hcap : 1 ≤ cap) (hlen : h.length ≤ cap) :
    showData cap f h = Except.ok (some f :: h.take (cap - 1)) := by
  have htrim : popBackWhile cap h = h := by
    rw [popBackWhile_eq_take]
    exact List.take_of_length_le hlen
  simp only [showData, growStep, htrim]
  by_cases hlt : h.length < cap
  · rw [if_pos hlt]
    have hne : (h ++ [Option.none]).isEmpty = false := by
      cases h <;> rfl
    rw [hne]
    simp only [Bool.false_eq_true, if_false, List.dropLast_concat]
    have : h.take (cap - 1) = h := List.take_of_length_le (by omega)
    rw [this]
  · rw [if_neg hlt]
    have hlen' : h.length = cap := le_antisymm hlen (not_lt.mp hlt)
    have hne : h.isEmpty = false := by
      cases h
      · simp at hlen'
        omega
      · rfl
    rw [hne]
    simp only [Bool.false_eq_true, if_false]
    rw [List.dropLast_eq_take, hlen']

/-- Helper: insertion runs compose over concatenation of frame lists. -/
theorem runShowData_append (cap : ℕ) (xs ys : List ℕ) (h : List Slot) :
    runShowData cap (xs ++ ys) h =
      match runShowData cap xs h with
      | Except.error e => Except.error e
      | Except.ok h2 => runShowData cap ys h2 := by
  induction xs generalizing h with
  | nil => rfl
  | cons x xs ih =>
    simp only [List.cons_append, runShowData]
    cases showData cap x h with
    | error e => rfl
    | ok h2 => exact ih h2

/-- C2: for every capacity cap at least 1, inserting frames one by one into an
initially empty history leaves, after every number of insertions, exactly
min(number of insertions, cap) retained frames, ordered newest-first (the
closed form: the reversed frame sequence truncated to cap); the count never
exceeds cap, and even the transient list built inside one insertion (after the
trim and growth steps) never exceeds cap slots. -/
theorem runShowData_history_spec (cap : ℕ) (hcap : 1 ≤ cap) (frames : List ℕ) :
    runShowData cap frames [] = Except.ok ((frames.reverse.take cap).map some) ∧
    ((frames.reverse.take cap).map some).length = min frames.length cap ∧
    min frames.length cap ≤ cap ∧
    (∀ h : List Slot, (growStep cap (popBackWhile cap h)).length ≤ cap) := by
  refine ⟨?_, ?_, min_le_right _ _, fun h => ?_⟩
  · induction frames using List.reverseRecOn with
    | nil => simp [runShowData]
    | append_singleton fs f ih =>
      rw [runShowData_append, ih]
      have hlen : ((fs.reverse.take cap).map some).length ≤ cap := by
        simp only [List.length_map, List.length_take]
        omega
      simp only [runShowData]
      rw [showData_of_length_le cap f _ hcap hlen]
      refine congrArg Except.ok ?_
      obtain ⟨k, rfl⟩ : ∃ k, cap = k + 1 := ⟨cap - 1, by omega⟩
      have hmin : min k (k + 1) = k := min_eq_left (Nat.le_succ k)
      simp [List.reverse_append, List.take_succ_cons, ← List.map_take, List.take_take, hmin]
  · simp only [List.length_map, List.length_take, List.length_reverse]
    omega
  · have h1 : (popBackWhile cap h).length ≤ cap := by
      rw [popBackWhile_eq_take]
      simp only [List.length_take]
      omega
    simp only [growStep]
    split_ifs with hlt
    · simp only [List.length_append, List.length_singleton]
      omega
    · exact h1

/-- Witness for C2 at concrete inputs: capacity 2, three insertions of frames
5, 6, 7 into the empty history leave exactly the two newest frames,
newest-first. -/
theorem runShowData_history_spec_witness :
    1 ≤ 2 ∧ runShowData 2 [5, 6, 7] [] = Except.ok [some 7, some 6] := by
  refine ⟨by norm_num, ?_⟩
  have h := (runShowData_history_spec 2 (by norm_num) [5, 6, 7]).1
  rw [h]
  rfl

/-- C8 (amended): frame insertion is total at capacity 1 and degrades to
retaining exactly the latest frame, from any starting history; at capacity 0,
however, the trim loop first empties the history and the subsequent
`std::prev(end())` / `front()` accesses hit an empty list, so insertion is
not well-defined (error branch) for every frame and every starting history. -/
theorem showData_degenerate_capacities :
    (∀ (f : ℕ) (h : List Slot), showData 1 f h = Except.ok [some f]) ∧
    (∀ (f : ℕ) (h : List Slot), showData 0 f h = Except.error BufferError.emptyAccess) := by
  constructor
  · intro f h
    simp only [showData, growStep, popBackWhile_eq_take]
    cases h with
    | nil => rfl
    | cons a t => rfl
  · intro f h
    simp only [showData, growStep, popBackWhile_eq_take, List.take_zero]
    rfl

/-- C8 counterexample: at capacity 0 an insertion into a one-frame history (as
left behind by a larger previous capacity) reaches the empty-list access, so
insertion at capacity 0 is not total, contradicting the claim that capacity 0
is well-defined and degrades to showing the latest frame. -/
theorem showData_capacity_zero_counterexample :
    showData 0 7 [some 3] = Except.error BufferError.emptyAccess := by
  simp only [showData, growStep, popBackWhile_eq_take, List.take_zero]
  rfl

/-! ## MeasurementComputer: DsoWidget::updateMarkerDetails (C9) -/

/-- A voltage channel as read by DsoWidget::updateMarkerDetails: the used flag,
the channel's cursor, and the gain `scope->gain(channel)` in volts per
division. -/
structure VoltageChannel where
  used : Bool
  cursor : ScopeCursor
  gain : ℚ
deriving DecidableEq, Repr

/-- The two physical quantities computed by DsoWidget::updateMarkerDetails for
one used voltage channel (dsowidget.cpp:491-492) and handed to the cursor-info
display: the time delta in seconds and the voltage delta in volts. -/
structure CursorMeasurement where
  deltaTime : ℚ
  deltaVoltage : ℚ
deriving DecidableEq, Repr

/-- The voltage-channel branch of DsoWidget::updateMarkerDetails
(dsowidget.cpp:485-498): a used channel gets an enabled selector and the signed
deltas `(p1.x - p0.x) * timebase` and `(p1.y - p0.y) * gain`; an unused channel
gets a disabled selector and cleared cursor info (`Option.none`). -/
def updateMarkerDetailsVoltage (timebase : ℚ) (ch : VoltageChannel) :
    Option CursorMeasurement :=
  if ch.used then
    some ⟨(ch.cursor.pos1.x - ch.cursor.pos0.x) * timebase,
          (ch.cursor.pos1.y - ch.cursor.pos0.y) * ch.gain⟩
  else Option.none

/-- Function updateCursorInfo (dsowidget.cpp:431-457): which of the two delta
values actually reach the two labels, by cursor shape. -/
def updateCursorInfo (strX strY : ℚ) (shape : CursorShape) : Option ℚ × Option ℚ :=
  match shape with
  | CursorShape.none => (Option.none, Option.none)
  | CursorShape.horizontal => (Option.none, some strY)
  | CursorShape.vertical => (some strX, Option.none)
  | CursorShape.rectangular => (some strX, some strY)

/-- C9: for every used voltage channel the computed measurements are the signed
products deltaTime = (pos1.x - pos0.x) * timebase and deltaVoltage =
(pos1.y - pos0.y) * gain; they are signed (swapping the marker pair negates
both), and with a rectangular cursor both reach the display labels. -/
theorem updateMarkerDetails_voltage_deltas (timebase : ℚ) (ch : VoltageChannel)
    (hu : ch.used = true) :
    updateMarkerDetailsVoltage timebase ch =
      some ⟨(ch.cursor.pos1.x - ch.cursor.pos0.x) * timebase,
            (ch.cursor.pos1.y - ch.cursor.pos0.y) * ch.gain⟩ ∧
    updateMarkerDetailsVoltage timebase { ch with cursor := ⟨ch.cursor.shape, ch.cursor.pos1, ch.cursor.pos0⟩ } =
      some ⟨-((ch.cursor.pos1.x - ch.cursor.pos0.x) * timebase),
            -((ch.cursor.pos1.y - ch.cursor.pos0.y) * ch.gain)⟩ ∧
    (ch.cursor.shape = CursorShape.rectangular →
      updateCursorInfo ((ch.cursor.pos1.x - ch.cursor.pos0.x) * timebase)
          ((ch.cursor.pos1.y - ch.cursor.pos0.y) * ch.gain) ch.cursor.shape =
        (some ((ch.cursor.pos1.x - ch.cursor.pos0.x) * timebase),
         some ((ch.cursor.pos1.y - ch.cursor.pos0.y) * ch.gain))) := by
  refine ⟨by simp [updateMarkerDetailsVoltage, hu], ?_, fun hs => by rw [hs]; rfl⟩
  simp [updateMarkerDetailsVoltage, hu]
  exact ⟨by ring, by ring⟩

/-- Witness for C9: the literal example from the spec, pos0 = (0, 0),
pos1 = (2, 1), gain = 1/2 V/div, timebase = 1/1000 s/div gives
deltaTime = 1/500 s and deltaVoltage = 1/2 V. -/
theorem updateMarkerDetails_voltage_deltas_witness :
    updateMarkerDetailsVoltage (1/1000)
        ⟨true, ⟨CursorShape.rectangular, ⟨0, 0⟩, ⟨2, 1⟩⟩, 1/2⟩ =
      some ⟨1/500, 1/2⟩ := by
  have h := (updateMarkerDetails_voltage_deltas (1/1000)
    ⟨true, ⟨CursorShape.rectangular, ⟨0, 0⟩, ⟨2, 1⟩⟩, 1/2⟩ rfl).1
  rw [h]
  norm_num [CursorMeasurement.mk.injEq]
